import Mathlib

/-
Verification of the Trip Advisory Engine of
PublicTransportDelayPrediction (src/app.py).

Shallow embedding conventions:
* Python floats are modelled as rationals (ℚ); Python's two-argument
  `round(x, n)` (round to nearest multiple of 10^-n) is modelled by
  `round_to n`.  Python uses banker's rounding at exact half-way ties;
  the model rounds half up.  No verified property depends on tie
  behaviour.
* `geopy.distance.geodesic(...).km` is an external library computation;
  it is passed in as an explicit distance function `gdist`.
* The optional pickled ML model (`model` global) is modelled as an
  optional function from the feature vector to `Except String ℚ`:
  `Except.error` models the artifact raising an exception.
* Python's `None` for the missing road route / missing `road_km` is
  modelled with `Option`.  In the `/predict` pipeline, `road_km`,
  `bus_time_min` and `has_route` are all derived from the single
  optional TomTom route result, exactly as in the source, so they are
  derived here from one `Option RouteData` value.
-/

namespace PTDelay

/-- A latitude/longitude pair, as the `(lat, lon)` tuples of app.py. -/
abbrev Point := ℚ × ℚ

/-- External geodesic-distance function (geopy `geodesic(p, q).km`). -/
abbrev GeoDist := Point → Point → ℚ

/-- `round(x, n)` of Python: round to the nearest multiple of `10 ^ (-n)`
(ties modelled as round-half-up, see header comment). -/
def round_to (n : ℕ) (q : ℚ) : ℚ :=
  ((round (q * 10 ^ n) : ℤ) : ℚ) / 10 ^ n

/-- `in_karnataka` of app.py (lines 222-225): simple bounding-box check
`11.5 <= lat <= 18.5 and 74.0 <= lon <= 78.7`. -/
def in_karnataka (pt : Point) : Prop :=
  11.5 ≤ pt.1 ∧ pt.1 ≤ 18.5 ∧ 74.0 ≤ pt.2 ∧ pt.2 ≤ 78.7

instance in_karnataka_decidable (pt : Point) : Decidable (in_karnataka pt) :=
  inferInstanceAs (Decidable (11.5 ≤ pt.1 ∧ pt.1 ≤ 18.5 ∧ 74.0 ≤ pt.2 ∧ pt.2 ≤ 78.7))

/-- `BLR_METRO_STATIONS` of app.py (lines 189-198). -/
def BLR_METRO_STATIONS : List Point :=
  [(12.9789, 77.5715),
   (13.0186, 77.5560),
   (12.9784, 77.6408),
   (12.9780, 77.6512),
   (12.9951, 77.6974),
   (13.0097, 77.6956),
   (12.9184, 77.5735),
   (13.0509, 77.5304)]

/-- `_min_dist_km` of app.py (lines 214-220): minimum geodesic distance
from `pt` to a station list, starting from the sentinel `1e9`. -/
def min_dist_km (gdist : GeoDist) (pt : Point) (stations : List Point) : ℚ :=
  stations.foldl (fun best s => if gdist pt s < best then gdist pt s else best) (10 ^ 9)

/-- The duplicate-removal loop at the end of `available_public_modes`
(app.py lines 254-260): keep the first occurrence of each mode, `seen`
modelled as the list of modes already kept. -/
def unique_keep_first : List String → List String → List String
  | [], _ => []
  | m :: rest, seen =>
    if m ∈ seen then unique_keep_first rest seen
    else m :: unique_keep_first rest (m :: seen)

/-- `available_public_modes` of app.py (lines 228-260).
`road_km = none` models Python `road_km is None` (early return of the
empty list).  Bus requires `has_route`, both endpoints in the Karnataka
box and `1 <= road_km <= 800`; Metro requires both endpoints within
3.5 km of a Bengaluru metro station and `road_km <= 40`; Train requires
`road_km >= 120` and both endpoints in the box. -/
def available_public_modes (gdist : GeoDist) (road_km : Option ℚ) (has_route : Bool)
    (src_ll dst_ll : Point) : List String :=
  match road_km with
  | none => []
  | some rk =>
    unique_keep_first
      ((if has_route = true ∧ in_karnataka src_ll ∧ in_karnataka dst_ll
            ∧ 1 ≤ rk ∧ rk ≤ 800 then ["Bus"] else [])
        ++ (if min_dist_km gdist src_ll BLR_METRO_STATIONS ≤ 3.5
              ∧ min_dist_km gdist dst_ll BLR_METRO_STATIONS ≤ 3.5
              ∧ rk ≤ 40 then ["Metro"] else [])
        ++ (if 120 ≤ rk ∧ in_karnataka src_ll ∧ in_karnataka dst_ll
            then ["Train"] else []))
      []

/-- The feature dictionary consumed by `predict_delay_minutes`
(app.py lines 491-498 and analogues). -/
structure Features where
  distance_km : ℚ
  traffic_index : ℚ
  rain_mm : ℚ
  humidity_pct : ℚ
  temperature_c : ℚ
  mode : String

/-- The per-mode factor dictionary of app.py line 284, with default 5.0
for an unknown mode. -/
def mode_factor (mode : String) : ℚ :=
  if mode = "Bus" then 6.0
  else if mode = "Metro" then 3.0
  else if mode = "Train" then 3.5
  else if mode = "Cab" then 6.0
  else if mode = "Walk" then 1.0
  else 5.0

/-- The mode-code dictionary of app.py line 292, with default 0 for an
unknown mode. -/
def mode_code (mode : String) : ℚ :=
  if mode = "Bus" then 1
  else if mode = "Metro" then 2
  else if mode = "Train" then 3
  else if mode = "Cab" then 4
  else if mode = "Walk" then 5
  else 0

/-- The optional trained artifact (`model` global of app.py): a function
from the ordered feature vector to a prediction; `Except.error` models
the artifact raising an exception inside `model.predict`. -/
abbrev Model := List ℚ → Except String ℚ

/-- `predict_delay_minutes` of app.py (lines 278-298), with the optional
trained artifact made explicit.  Inputs are clamped to be non-negative,
the heuristic closed form is computed, and if an artifact is present it
is invoked on the ordered feature vector; an artifact failure falls back
to the heuristic value for that call.  The result is clamped to `≥ 0`. -/
def predict_delay_minutes_full (mdl : Option Model) (f : Features) : ℚ :=
  let dist := max f.distance_km 0
  let traffic := max f.traffic_index 0
  let rain := max f.rain_mm 0
  let delay := dist * (traffic / 30) * (1 + min rain 20 / 50) * mode_factor f.mode
  match mdl with
  | some m =>
    match m [dist, traffic, rain, f.humidity_pct, f.temperature_c, mode_code f.mode] with
    | Except.ok pred => max pred 0
    | Except.error _ => max delay 0
  | none => max delay 0

/-- `predict_delay_minutes` on the heuristic path (no trained artifact
loaded, i.e. the `model` global is `None`). -/
def predict_delay_minutes (f : Features) : ℚ :=
  predict_delay_minutes_full none f

/-- `traffic_for_mode` of app.py (lines 271-276): Bus inherits the base
index, Metro and Train are scaled to 20% (rounded to 1 decimal), every
other mode passes through. -/
def traffic_for_mode (base_idx : ℚ) (mode : String) : ℚ :=
  if mode = "Bus" then base_idx
  else if mode = "Metro" ∨ mode = "Train" then round_to 1 (base_idx * 0.2)
  else base_idx

/-- The weather stub `get_live_weather` result shape (app.py line 265). -/
structure Weather where
  temperature_c : ℚ
  humidity_pct : ℚ
  rain_mm : ℚ

/-- `get_live_weather` of app.py (lines 263-265): a static stub. -/
def get_live_weather (_pt : Point) : Weather :=
  { temperature_c := 24.0, humidity_pct := 70.0, rain_mm := 0.0 }

/-- The successful TomTom route payload used by `/predict`
(app.py lines 454-459): `distance_km` and `duration_min`; the polyline
is irrelevant to the verified properties. -/
structure RouteData where
  distance_km : ℚ
  duration_min : ℚ

/-- One row of the public/cab result table (app.py lines 512-519). -/
structure ModeRow where
  mode : String
  traffic_index : ℚ
  predicted_delay : ℚ
  total_time_min : ℚ
  fare : ℚ
  delay_note : String

/-- The body of the row loop of `/predict` shared by all modes
(app.py lines 490-519): traffic index, delay prediction, total time with
the 1-minute floor, per-mode fare, delay note.  The note's numeric
rendering uses ℚ `toString` in place of Python float formatting; no
verified property reads the note. -/
def mk_public_row (mdl : Option Model) (weather : Weather) (base_tr : ℚ)
    (mode : String) (dist_for_mode base_time : ℚ) : ModeRow :=
  let tr_idx := traffic_for_mode base_tr mode
  let feats : Features :=
    { distance_km := dist_for_mode, traffic_index := tr_idx,
      rain_mm := weather.rain_mm, humidity_pct := weather.humidity_pct,
      temperature_c := weather.temperature_c, mode := mode }
  let delay_min := round_to 2 (predict_delay_minutes_full mdl feats)
  let total_time := round_to 2 (max (base_time + delay_min) 1)
  let fare :=
    if mode = "Bus" then round_to 2 (5 + 2.5 * dist_for_mode)
    else if mode = "Metro" then round_to 2 (10 + 3.0 * dist_for_mode)
    else round_to 2 (8 + 2.0 * dist_for_mode)
  let note :=
    if delay_min < 3 then "No significant delay"
    else "~" ++ toString delay_min ++ " min delay"
  { mode := mode, traffic_index := tr_idx, predicted_delay := delay_min,
    total_time_min := total_time, fare := fare, delay_note := note }

/-- The per-mode dispatch of the row loop of `/predict`
(app.py lines 475-488): Bus is skipped (`continue`) without a route and
otherwise uses the road distance and router duration; Metro and Train
use road distance when present else straight-line distance, with their
effective-distance and base-time formulas. -/
def row_for_mode (mdl : Option Model) (route : Option RouteData) (straight_km : ℚ)
    (weather : Weather) (base_tr : ℚ) (mode : String) : Option ModeRow :=
  if mode = "Bus" then
    match route with
    | none => none
    | some r => some (mk_public_row mdl weather base_tr mode r.distance_km r.duration_min)
  else if mode = "Metro" then
    let base_dist := (route.map RouteData.distance_km).getD straight_km
    let dist := max (base_dist * 0.85) 2.0
    some (mk_public_row mdl weather base_tr mode dist (dist / 32.0 * 60.0))
  else
    let base_dist := (route.map RouteData.distance_km).getD straight_km
    let dist := max (base_dist * 0.90) 10.0
    some (mk_public_row mdl weather base_tr mode dist (dist / 40.0 * 60.0))

/-- The public rows of `/predict` (app.py lines 454-519): `road_km`,
`has_route` and the Bus base time all derive from the one optional route
result, availability is computed, and one row is attempted per available
mode (`filterMap` models the loop with `continue`). -/
def build_rows (gdist : GeoDist) (mdl : Option Model) (route : Option RouteData)
    (src_ll dst_ll : Point) (straight_km : ℚ) (weather : Weather) (base_tr : ℚ) :
    List ModeRow :=
  let road_km := route.map RouteData.distance_km
  let has_route := route.isSome
  let modes := available_public_modes gdist road_km has_route src_ll dst_ll
  modes.filterMap (row_for_mode mdl route straight_km weather base_tr)

/-- The row construction of `cab_predict` (app.py lines 646-670): a
single Cab row exactly when the route (road distance and duration) is
present. -/
def cab_rows (mdl : Option Model) (route : Option RouteData) (weather : Weather)
    (base_tr : ℚ) : List ModeRow :=
  match route with
  | none => []
  | some r =>
    let feats : Features :=
      { distance_km := r.distance_km, traffic_index := base_tr,
        rain_mm := weather.rain_mm, humidity_pct := weather.humidity_pct,
        temperature_c := weather.temperature_c, mode := "Cab" }
    let delay_min := round_to 2 (predict_delay_minutes_full mdl feats)
    let total_time := round_to 2 (max (r.duration_min + delay_min) 1)
    let fare := round_to 2 (40 + 14.0 * r.distance_km + 0.5 * delay_min)
    let note :=
      if delay_min < 3 then "No significant delay"
      else "~" ++ toString delay_min ++ " min delay"
    [{ mode := "Cab", traffic_index := base_tr, predicted_delay := delay_min,
       total_time_min := total_time, fare := fare, delay_note := note }]

/-- Python `min(xs, default=float("inf"))` over the row times
(app.py line 540): `none` models the default `inf` for an empty list. -/
def list_min : List ℚ → Option ℚ
  | [] => none
  | x :: xs =>
    match list_min xs with
    | none => some x
    | some m => some (min x m)

/-- The Walk-suggestion trigger of `/predict` (app.py lines 537-541):
`path_km <= 2.5 or walk_time_min <= min_public_time * 0.8`.  When the
row list is empty, `min_public_time` is the float `inf`;
`inf * 0.8 = inf` and any finite `walk_time_min <= inf` holds, so the
`none` branch is `true`. -/
def walk_suggested (straight_km : ℚ) (row_times : List ℚ) : Bool :=
  let path_km := straight_km * 1.35
  let walk_time_min := path_km / 4.5 * 60.0
  decide (path_km ≤ 2.5) ||
    (match list_min row_times with
     | none => true
     | some m => decide (walk_time_min ≤ m * 0.8))

/-- The Cab-suggestion trigger of `/predict` (app.py lines 561-583): the
whole block is guarded by `road_km is not None` (so `none` route gives
`false`); otherwise the cab total is computed (`bus_time_min` is present
whenever the route is, so the `road_km / 28` fallback of line 562 is
dead in this flow) and the suggestion is shown when
`(road_km <= 20 and cab_total < min_public_time * 0.85) or not rows`;
when `min_public_time` is `inf` the source compares
`cab_total < cab_total` (app.py line 575). -/
def cab_suggested (mdl : Option Model) (route : Option RouteData) (row_times : List ℚ)
    (weather : Weather) (base_tr : ℚ) : Bool :=
  match route with
  | none => false
  | some r =>
    let feats : Features :=
      { distance_km := r.distance_km, traffic_index := base_tr,
        rain_mm := weather.rain_mm, humidity_pct := weather.humidity_pct,
        temperature_c := weather.temperature_c, mode := "Cab" }
    let cab_delay := round_to 2 (predict_delay_minutes_full mdl feats)
    let cab_total := round_to 2 (max (r.duration_min + cab_delay) 1)
    let faster_than_public :=
      match list_min row_times with
      | none => decide (cab_total < cab_total)
      | some m => decide (cab_total < m * 0.85)
    (decide (r.distance_km ≤ 20) && faster_than_public) || row_times.isEmpty

/-- The `no_modes_msg` assignment of `/predict` (app.py lines 592-594):
set exactly when the row list is empty. -/
def no_modes_msg (rows : List ModeRow) : Option String :=
  if rows.isEmpty then
    some "No direct Public Transport available for this route. Try nearest major bus stop / metro station nearby."
  else none

/-- A concrete geodesic function for witnesses: every pair at distance 0. -/
def zero_dist : GeoDist := fun _ _ => 0

/-- A concrete geodesic function for witnesses: every pair 1000 km apart. -/
def far_dist : GeoDist := fun _ _ => 1000

/-- A concrete trained artifact that fails on every call. -/
def failing_model : Model := fun _ => Except.error "boom"

/-- The Majestic coordinates from `FALLBACK_PLACES` (app.py line 125). -/
def p_majestic : Point := (12.9789, 77.5715)

/-- The weather values produced by the `get_live_weather` stub. -/
def demo_weather : Weather := get_live_weather p_majestic

/-! ## Helper lemmas -/

theorem one_le_round_to_two {x : ℚ} (hx : 1 ≤ x) : 1 ≤ round_to 2 x := by
  have hr : (100 : ℤ) ≤ round (x * 10 ^ 2) := by
    rw [round_eq]
    refine Int.le_floor.mpr ?_
    push_cast
    linarith
  have hq : (100 : ℚ) ≤ ((round (x * 10 ^ 2) : ℤ) : ℚ) := by exact_mod_cast hr
  unfold round_to
  rw [le_div_iff₀ (by norm_num : (0:ℚ) < 10 ^ 2)]
  linarith

theorem mode_factor_nonneg (mode : String) : 0 ≤ mode_factor mode := by
  unfold mode_factor
  split_ifs <;> norm_num

theorem mem_unique_keep_first (a : String) (l : List String) :
    ∀ seen : List String, a ∈ l → a ∉ seen → a ∈ unique_keep_first l seen := by
  induction l with
  | nil => intro seen h _; cases h
  | cons b rest ih =>
    intro seen hl hs
    unfold unique_keep_first
    by_cases hb : b ∈ seen
    · rw [if_pos hb]
      rcases List.mem_cons.mp hl with rfl | hrest
      · exact absurd hb hs
      · exact ih seen hrest hs
    · rw [if_neg hb]
      rcases List.mem_cons.mp hl with rfl | hrest
      · exact List.mem_cons_self a _
      · by_cases hab : a = b
        · subst hab; exact List.mem_cons_self a _
        · refine List.mem_cons_of_mem _ (ih _ hrest ?_)
          intro hmem
          rcases List.mem_cons.mp hmem with h1 | h2
          · exact hab h1
          · exact hs h2

theorem mem_of_mem_unique_keep_first (a : String) (l : List String) :
    ∀ seen : List String, a ∈ unique_keep_first l seen → a ∈ l := by
  induction l with
  | nil =>
    intro seen h
    unfold unique_keep_first at h
    cases h
  | cons b rest ih =>
    intro seen h
    unfold unique_keep_first at h
    by_cases hb : b ∈ seen
    · rw [if_pos hb] at h
      exact List.mem_cons_of_mem _ (ih seen h)
    · rw [if_neg hb] at h
      rcases List.mem_cons.mp h with rfl | h2
      · exact List.mem_cons_self _ _
      · exact List.mem_cons_of_mem _ (ih _ h2)

theorem one_le_mk_public_row_total (mdl : Option Model) (weather : Weather) (base_tr : ℚ)
    (mode : String) (dist bt : ℚ) :
    1 ≤ (mk_public_row mdl weather base_tr mode dist bt).total_time_min := by
  unfold mk_public_row
  exact one_le_round_to_two (le_max_right _ _)

theorem row_for_mode_total (mdl : Option Model) (route : Option RouteData) (straight : ℚ)
    (weather : Weather) (base_tr : ℚ) (mode : String) (row : ModeRow)
    (h : row_for_mode mdl route straight weather base_tr mode = some row) :
    1 ≤ row.total_time_min := by
  unfold row_for_mode at h
  by_cases hb : mode = "Bus"
  · rw [if_pos hb] at h
    rcases route with _ | r
    · cases h
    · dsimp only at h
      have hrow := Option.some.inj h
      subst hrow
      exact one_le_mk_public_row_total _ _ _ _ _ _
  · rw [if_neg hb] at h
    by_cases hm : mode = "Metro"
    · rw [if_pos hm] at h
      dsimp only at h
      have hrow := Option.some.inj h
      subst hrow
      exact one_le_mk_public_row_total _ _ _ _ _ _
    · rw [if_neg hm] at h
      dsimp only at h
      have hrow := Option.some.inj h
      subst hrow
      exact one_le_mk_public_row_total _ _ _ _ _ _

theorem row_for_mode_some_mode (mdl : Option Model) (r : RouteData) (straight : ℚ)
    (weather : Weather) (base_tr : ℚ) (m : String) :
    ∃ row, row_for_mode mdl (some r) straight weather base_tr m = some row ∧ row.mode = m := by
  unfold row_for_mode
  by_cases hb : m = "Bus"
  · rw [if_pos hb]
    exact ⟨_, rfl, rfl⟩
  · rw [if_neg hb]
    by_cases hm : m = "Metro"
    · rw [if_pos hm]
      exact ⟨_, rfl, rfl⟩
    · rw [if_neg hm]
      exact ⟨_, rfl, rfl⟩

theorem filterMap_total_map (f : String → Option ModeRow)
    (hf : ∀ m, ∃ row, f m = some row ∧ row.mode = m) (l : List String) :
    (l.filterMap f).map ModeRow.mode = l := by
  induction l with
  | nil => rfl
  | cons m rest ih =>
    rcases hf m with ⟨row, hfm, hmode⟩
    simp [List.filterMap_cons, hfm, hmode, ih]

/-! ## Claim theorems -/

/-- C3: for every pair of endpoints and every hasRoute flag, if `roadKm`
is absent (`none`) then `available_public_modes` returns the empty list —
no mode is ever offered without a road distance. -/
theorem no_road_km_no_modes (gdist : GeoDist) (has_route : Bool) (src_ll dst_ll : Point) :
    available_public_modes gdist none has_route src_ll dst_ll = [] := rfl

/-- C4: for every `roadKm` in `[1, 800]` with `hasRoute = true` and both
endpoints inside the Karnataka bounding box, Bus is a member of the list
returned by `available_public_modes` and appears first. -/
theorem bus_available_and_first (gdist : GeoDist) (rk : ℚ) (src_ll dst_ll : Point)
    (h1 : 1 ≤ rk) (h2 : rk ≤ 800) (hs : in_karnataka src_ll) (hd : in_karnataka dst_ll) :
    (available_public_modes gdist (some rk) true src_ll dst_ll).head? = some "Bus"
      ∧ "Bus" ∈ available_public_modes gdist (some rk) true src_ll dst_ll := by
  unfold available_public_modes
  dsimp only
  rw [if_pos ⟨rfl, hs, hd, h1, h2⟩]
  simp only [List.cons_append, List.nil_append]
  unfold unique_keep_first
  rw [if_neg (List.not_mem_nil "Bus")]
  exact ⟨rfl, List.mem_cons_self _ _⟩

/-- Witness for C4 at `roadKm = 5`, both endpoints at Majestic,
stations far away (so only the Bus rule fires). -/
theorem bus_available_and_first_witness :
    (available_public_modes far_dist (some 5) true p_majestic p_majestic).head? = some "Bus"
      ∧ "Bus" ∈ available_public_modes far_dist (some 5) true p_majestic p_majestic :=
  bus_available_and_first far_dist 5 p_majestic p_majestic (by norm_num) (by norm_num)
    (by norm_num [in_karnataka, p_majestic]) (by norm_num [in_karnataka, p_majestic])

/-- C5: for every endpoint pair whose minimum distance to the metro
station set is at most 3.5 km on both ends and every present
`roadKm ≤ 40`, Metro is a member of the returned list, independent of
the `hasRoute` flag. -/
theorem metro_available_near_stations (gdist : GeoDist) (rk : ℚ) (has_route : Bool)
    (src_ll dst_ll : Point)
    (hsrc : min_dist_km gdist src_ll BLR_METRO_STATIONS ≤ 3.5)
    (hdst : min_dist_km gdist dst_ll BLR_METRO_STATIONS ≤ 3.5)
    (hrk : rk ≤ 40) :
    "Metro" ∈ available_public_modes gdist (some rk) has_route src_ll dst_ll := by
  unfold available_public_modes
  dsimp only
  have hmetro : min_dist_km gdist src_ll BLR_METRO_STATIONS ≤ 3.5
      ∧ min_dist_km gdist dst_ll BLR_METRO_STATIONS ≤ 3.5 ∧ rk ≤ 40 := ⟨hsrc, hdst, hrk⟩
  rw [if_pos hmetro]
  refine mem_unique_keep_first _ _ [] ?_ (List.not_mem_nil _)
  exact List.mem_append_left _ (List.mem_append_right _ (List.mem_cons_self _ _))

/-- Witness for C5 with all geodesic distances 0, `roadKm = 5`,
`hasRoute = false`. -/
theorem metro_available_near_stations_witness :
    "Metro" ∈ available_public_modes zero_dist (some 5) false p_majestic p_majestic :=
  metro_available_near_stations zero_dist 5 false p_majestic p_majestic
    (by norm_num [min_dist_km, BLR_METRO_STATIONS, zero_dist])
    (by norm_num [min_dist_km, BLR_METRO_STATIONS, zero_dist])
    (by norm_num)

/-- C6: for every feature vector (any rational distance, traffic, rain,
humidity, temperature and any mode string), `predict_delay_minutes` on
the heuristic path returns a value `≥ 0`. -/
theorem predict_delay_nonneg (f : Features) : 0 ≤ predict_delay_minutes f := by
  unfold predict_delay_minutes predict_delay_minutes_full
  exact le_max_right _ _

/-- C7: on the heuristic path, `predict_delay_minutes` is monotonically
non-decreasing in `distance_km` when all other features are held
fixed. -/
theorem predict_delay_monotone_in_distance
    (d1 d2 traffic rain hum temp : ℚ) (mode : String) (h : d1 ≤ d2) :
    predict_delay_minutes
        { distance_km := d1, traffic_index := traffic, rain_mm := rain,
          humidity_pct := hum, temperature_c := temp, mode := mode }
      ≤ predict_delay_minutes
        { distance_km := d2, traffic_index := traffic, rain_mm := rain,
          humidity_pct := hum, temperature_c := temp, mode := mode } := by
  unfold predict_delay_minutes predict_delay_minutes_full
  have ht : (0:ℚ) ≤ max traffic 0 / 30 := by positivity
  have hrain : (0:ℚ) ≤ 1 + min (max rain 0) 20 / 50 := by
    have hmin : (0:ℚ) ≤ min (max rain 0) 20 := le_min (le_max_right _ _) (by norm_num)
    linarith
  have hm := mode_factor_nonneg mode
  have hd : max d1 0 ≤ max d2 0 := max_le_max h le_rfl
  exact max_le_max
    (mul_le_mul_of_nonneg_right
      (mul_le_mul_of_nonneg_right (mul_le_mul_of_nonneg_right hd ht) hrain) hm)
    le_rfl

/-- Witness for C7 at distances 1 and 2, Bus features. -/
theorem predict_delay_monotone_in_distance_witness :
    predict_delay_minutes
        { distance_km := 1, traffic_index := 40, rain_mm := 0,
          humidity_pct := 70, temperature_c := 24, mode := "Bus" }
      ≤ predict_delay_minutes
        { distance_km := 2, traffic_index := 40, rain_mm := 0,
          humidity_pct := 70, temperature_c := 24, mode := "Bus" } :=
  predict_delay_monotone_in_distance 1 2 40 0 70 24 "Bus" (by norm_num)

/-- C8: every ModeRow produced by the trip assembler — any row of the
public row builder and any row of the cab builder — has
`total_time_min ≥ 1`, and the shared total-time formula
`round(max(base_time + delay, 1), 2)` is `≥ 1` for every base time and
delay. -/
theorem mode_row_total_time_ge_one :
    (∀ base_time delay : ℚ, 1 ≤ round_to 2 (max (base_time + delay) 1))
    ∧ (∀ (gdist : GeoDist) (mdl : Option Model) (route : Option RouteData)
        (src_ll dst_ll : Point) (straight : ℚ) (weather : Weather) (base_tr : ℚ),
        (build_rows gdist mdl route src_ll dst_ll straight weather base_tr).all
          (fun row => decide (1 ≤ row.total_time_min)) = true)
    ∧ (∀ (mdl : Option Model) (route : Option RouteData) (weather : Weather) (base_tr : ℚ),
        (cab_rows mdl route weather base_tr).all
          (fun row => decide (1 ≤ row.total_time_min)) = true) := by
  refine ⟨fun bt d => one_le_round_to_two (le_max_right _ _), ?_, ?_⟩
  · intro gdist mdl route src_ll dst_ll straight weather base_tr
    rw [List.all_eq_true]
    intro row hrow
    simp only [decide_eq_true_eq]
    unfold build_rows at hrow
    rcases List.mem_filterMap.mp hrow with ⟨m, _, hm⟩
    exact row_for_mode_total mdl route straight weather base_tr m row hm
  · intro mdl route weather base_tr
    rw [List.all_eq_true]
    intro row hrow
    simp only [decide_eq_true_eq]
    unfold cab_rows at hrow
    rcases route with _ | r
    · cases hrow
    · dsimp only at hrow
      rcases List.mem_singleton.mp hrow with rfl
      exact one_le_round_to_two (le_max_right _ _)

/-- C9: if a trained artifact is present but its prediction call fails
for one invocation, `predict_delay_minutes_full` returns for that call
exactly the clamped heuristic closed-form value — equal to the
heuristic-path result — and the failure is absorbed, never propagated. -/
theorem model_failure_falls_back_to_heuristic (m : Model) (f : Features) (e : String)
    (h : m [max f.distance_km 0, max f.traffic_index 0, max f.rain_mm 0,
            f.humidity_pct, f.temperature_c, mode_code f.mode] = Except.error e) :
    predict_delay_minutes_full (some m) f
        = max (max f.distance_km 0 * (max f.traffic_index 0 / 30)
            * (1 + min (max f.rain_mm 0) 20 / 50) * mode_factor f.mode) 0
      ∧ predict_delay_minutes_full (some m) f = predict_delay_minutes f := by
  have key : predict_delay_minutes_full (some m) f
      = max (max f.distance_km 0 * (max f.traffic_index 0 / 30)
          * (1 + min (max f.rain_mm 0) 20 / 50) * mode_factor f.mode) 0 := by
    unfold predict_delay_minutes_full
    dsimp only
    rw [h]
  exact ⟨key, key.trans rfl⟩

/-- Witness for C9: an artifact that always raises, Bus features at 5 km. -/
theorem model_failure_falls_back_witness :
    predict_delay_minutes_full (some failing_model)
        { distance_km := 5, traffic_index := 40, rain_mm := 0,
          humidity_pct := 70, temperature_c := 24, mode := "Bus" }
      = predict_delay_minutes
        { distance_km := 5, traffic_index := 40, rain_mm := 0,
          humidity_pct := 70, temperature_c := 24, mode := "Bus" } :=
  (model_failure_falls_back_to_heuristic failing_model
    { distance_km := 5, traffic_index := 40, rain_mm := 0,
      humidity_pct := 70, temperature_c := 24, mode := "Bus" } "boom" rfl).2

/-- C10: in the public predict pipeline, where `road_km` and `has_route`
both derive from the one optional route value, every available mode
yields exactly one row, in order (the skip-Bus-without-route branch is
unreachable); moreover Bus is never in the availability list when
`hasRoute` is false. -/
theorem rows_match_available_modes (gdist : GeoDist) (mdl : Option Model)
    (route : Option RouteData) (src_ll dst_ll : Point) (straight : ℚ)
    (weather : Weather) (base_tr : ℚ) :
    (build_rows gdist mdl route src_ll dst_ll straight weather base_tr).map ModeRow.mode
        = available_public_modes gdist (route.map RouteData.distance_km) route.isSome
            src_ll dst_ll
      ∧ ∀ rk : ℚ, "Bus" ∉ available_public_modes gdist (some rk) false src_ll dst_ll := by
  constructor
  · unfold build_rows
    rcases route with _ | r
    · rfl
    · exact filterMap_total_map _ (row_for_mode_some_mode mdl r straight weather base_tr) _
  · intro rk hmem
    unfold available_public_modes at hmem
    dsimp only at hmem
    have h1 := mem_of_mem_unique_keep_first _ _ _ hmem
    rw [if_neg (by simp : ¬(false = true ∧ in_karnataka src_ll ∧ in_karnataka dst_ll
        ∧ 1 ≤ rk ∧ rk ≤ 800))] at h1
    split_ifs at h1 <;> simp at h1

/-- C1 counterexample: with no public rows and a straight-line distance
of 10 km, the walking path is 13.5 km > 2.5 km, yet the Walk suggestion
fires: `min(..., default=inf)` makes the time clause hold on its own. -/
theorem walk_offered_without_distance_clause :
    walk_suggested 10 [] = true ∧ ¬ ((10 : ℚ) * 1.35 ≤ 2.5) := by
  constructor
  · simp [walk_suggested, list_min]
  · norm_num

/-- C1 (amended): when no public-mode rows exist, the time clause
compares the walk time against `inf * 0.8 = inf` and is always
satisfied, so a Walk suggestion is always offered, whether or not the
distance clause holds. -/
theorem walk_always_offered_when_no_rows (straight_km : ℚ) :
    walk_suggested straight_km [] = true := by
  simp [walk_suggested, list_min]

/-- C2 counterexample: with geocoding successful but the route absent
(road distance `None`), empty rows, stub weather and off-peak traffic
28, no Cab suggestion is offered — refuting the claim that the no-rows
fallback forces a Cab suggestion in this scenario. -/
theorem no_route_cab_not_offered_example :
    cab_suggested none none [] demo_weather 28 = false := rfl

/-- C2 (amended): when geocoding succeeds but the route provider returns
no route, all public rows are suppressed and the no-modes message is
set, but no Cab suggestion is offered: the Cab suggestion block runs
only when a road distance is present, so the no-public-rows fallback
cannot fire without a route. -/
theorem no_route_suppresses_cab_and_sets_message (gdist : GeoDist) (mdl : Option Model)
    (src_ll dst_ll : Point) (straight : ℚ) (weather : Weather) (base_tr : ℚ) :
    build_rows gdist mdl none src_ll dst_ll straight weather base_tr = []
      ∧ (no_modes_msg (build_rows gdist mdl none src_ll dst_ll straight
            weather base_tr)).isSome = true
      ∧ cab_suggested mdl none
          ((build_rows gdist mdl none src_ll dst_ll straight weather base_tr).map
            ModeRow.total_time_min) weather base_tr = false :=
  ⟨rfl, rfl, rfl⟩

end PTDelay
